import Mathlib

/-!
Verification development for the THI solar dashboard ingestion pipeline.

The definitions below are a shallow embedding of the repository's Python
sources (`app.py`, `ftp_monitor.py`).  Numeric values carried by the CSV are
modelled as exact rationals; fallible operations return `Except Unit` or
`Option`.  Each theorem settles one specification claim against these
definitions.
-/

/-- Model of one CSV cell as pandas presents it to the parsing code in
`fetch_pv_data`: `na` is a missing/NaN cell, `num` a numeric cell, and
`txt` a non-numeric text cell (on which Python's `float` raises). -/
inductive Cell where
  | na : Cell
  | num : ℚ → Cell
  | txt : String → Cell
deriving DecidableEq

/-- Model of the parsed CSV table: a header row plus data rows.  Rows shorter
than the header are padded with `na` on access, as pandas does. -/
structure Csv where
  header : List String
  rows : List (List Cell)
deriving DecidableEq

/-- Python's `str.split` on the separator character, on character lists:
every occurrence of the separator opens a new (possibly empty) part. -/
def splitChars (sep : Char) : List Char → List (List Char)
  | [] => [[]]
  | c :: rest =>
    match splitChars sep rest with
    | [] => if c = sep then [[], []] else [[c]]
    | cur :: more => if c = sep then [] :: cur :: more else (c :: cur) :: more

/-- Value of a decimal digit list, most significant first. -/
def digitsVal (l : List Char) : ℕ :=
  l.foldl (fun n c => 10 * n + (c.toNat - 48)) 0

/-- Model of Python's `int` applied to a short string: optional sign followed
by a nonempty run of decimal digits; anything else fails. -/
def pyInt (s : List Char) : Option ℤ :=
  match s with
  | '-' :: rest =>
    if rest ≠ [] ∧ rest.all Char.isDigit then some (-(digitsVal rest : ℤ)) else none
  | '+' :: rest =>
    if rest ≠ [] ∧ rest.all Char.isDigit then some (digitsVal rest : ℤ) else none
  | l =>
    if l ≠ [] ∧ l.all Char.isDigit then some (digitsVal l : ℤ) else none

/-- The integer embedded in a per-point column name, when
`int(col.split(sep)[2])` succeeds (`sep` is the underscore). -/
def parseColIdx (col : String) : Option ℤ :=
  match (splitChars '_' col.data).get? 2 with
  | none => none
  | some part => pyInt part

/-- Embedding of `_ptot_index` in `fetch_pv_data`: the integer embedded in the
column name, or the sentinel `10 ^ 9` when indexing or `int` parsing fails. -/
def _ptot_index (col : String) : ℤ :=
  match parseColIdx col with
  | some k => k
  | none => 10 ^ 9

/-- Key order used by `sorted(prod_cols, key=_ptot_index)`. -/
def ptotLe (a b : String) : Prop :=
  _ptot_index a ≤ _ptot_index b

instance : DecidableRel ptotLe := fun a b => Int.decLe _ _

instance : IsTotal String ptotLe := ⟨fun a b => Int.le_total _ _⟩

instance : IsTrans String ptotLe := ⟨fun _ _ _ hab hbc => le_trans hab hbc⟩

/-- The sort step `sorted(prod_cols, key=_ptot_index)`. -/
def sortCols (cols : List String) : List String :=
  List.insertionSort ptotLe cols

/-- Selection of per-point energy columns:
`c.startswith(p) and c.endswith(s)` where `p` is the per-point column
name stem and `s` the kWh suffix. -/
def isProdCol (c : String) : Bool :=
  "energy_ptot_".data.isPrefixOf c.data && "_kWh".data.isSuffixOf c.data

/-- Cell of `row` under column `col`, when the column exists in the header;
short rows are padded with `na`. -/
def colCell (header : List String) (row : List Cell) (col : String) : Option Cell :=
  (header.findIdx? (fun h => h == col)).map (fun i => row.getD i Cell.na)

/-- Cell lookup with `na` for an absent column (used for the per-point
columns, which are always drawn from the header). -/
def cellGet (header : List String) (row : List Cell) (col : String) : Cell :=
  (colCell header row col).getD Cell.na

/-- Model of Python's `float` on a cell: NaN stays NaN (`none`), numbers are
returned, non-numeric text raises. -/
def pyFloat : Cell → Except Unit (Option ℚ)
  | Cell.na => Except.ok none
  | Cell.num q => Except.ok (some q)
  | Cell.txt _ => Except.error ()

/-- Embedding of `row.get(col, dflt)` followed by `float`: the default is used
only when the column is absent from the header. -/
def rowFloatD (header : List String) (row : List Cell) (col : String)
    (dflt : Option ℚ) : Except Unit (Option ℚ) :=
  match colCell header row col with
  | some c => pyFloat c
  | none => Except.ok dflt

/-- Embedding of the curve comprehension
`[float(row[c]) for c in prod_cols if pd.notna(row[c])]` applied to the cells
of the sorted columns in order: NaN cells are skipped, numeric cells kept, a
text cell raises. -/
def collectCurve : List Cell → Except Unit (List ℚ)
  | [] => Except.ok []
  | Cell.na :: rest => collectCurve rest
  | Cell.num q :: rest => (collectCurve rest).map (fun l => q :: l)
  | Cell.txt _ :: _ => Except.error ()

/-- Cell used for the `data_timestamp` field: `row.get(col, empty)` with the
timestamp column name. -/
def tsCell (header : List String) (row : List Cell) : Cell :=
  match colCell header row "timestamp" with
  | some c => c
  | none => Cell.txt ""

/-- One parsed observation, mirroring the `parsed` dict built by
`fetch_pv_data`.  Fields that can be NaN are `Option ℚ` with `none` = NaN;
`dataSource` and `dataTimestamp` are `none` when the key is absent from the
returned dict (as in the parse-failure fallback). -/
structure Reading where
  live_power : ℚ
  energy_today : Option ℚ
  ac_power : ℚ
  dc_power : ℚ
  efficiency : ℚ
  uv_index : ℚ
  total_energy : Option ℚ
  system_temp : ℚ
  co2_avoided : Option ℚ
  ambient_temp : ℚ
  production_values : List ℚ
  dataTimestamp : Option Cell
  dataSource : Option String
deriving DecidableEq

/-- The dict literal built on a successful parse (lines 427-445 of `app.py`):
`live_power` is the last curve value or `0.0` (`liveOf`); `ac_power` and
`dc_power` follow the Python conditional expression whose condition is the
truthiness of `live_power`; `co2_avoided` is `total_energy * 0.366` with NaN
propagation. -/
def liveOf (pv : List ℚ) : ℚ :=
  (pv.getLast?).getD 0

/-- Builds the parsed reading from the curve and the extracted fields. -/
def mkReading (pv : List ℚ) (energy_today total_energy : Option ℚ) (ts : Cell) : Reading :=
  let live_power : ℚ := liveOf pv
  { live_power := live_power
    energy_today := energy_today
    ac_power := if live_power = 0 then 0 else live_power * (92 / 100)
    dc_power := if live_power = 0 then 0 else live_power * (102 / 100)
    efficiency := 92
    uv_index := 0
    total_energy := total_energy
    system_temp := 0
    co2_avoided := total_energy.map (fun q => q * (366 / 1000))
    ambient_temp := 0
    production_values := pv
    dataTimestamp := some ts
    dataSource := some "live" }

/-- The try-block of the CSV parse in `fetch_pv_data` (lines 404-448): select
the last data row, collect and sort the per-point columns, extract the curve,
and build the reading; every Python exception becomes `Except.error`. -/
def parseCore (csv : Csv) : Except Unit Reading :=
  match csv.rows.getLast? with
  | none => Except.error ()
  | some row =>
    match collectCurve ((sortCols (csv.header.filter isProdCol)).map (cellGet csv.header row)) with
    | Except.error _ => Except.error ()
    | Except.ok pv =>
      match rowFloatD csv.header row "total_energy_kWh" (some pv.sum) with
      | Except.error _ => Except.error ()
      | Except.ok energy_today =>
        match rowFloatD csv.header row "total_energy_kWh" (some 0) with
        | Except.error _ => Except.error ()
        | Except.ok total_energy =>
          Except.ok (mkReading pv energy_today total_energy (tsCell csv.header row))

/-- The fallback dict returned by the except-branch of `fetch_pv_data`
(lines 451-466): all numeric fields `0.0`, a 24-point all-zero curve, and no
`data_timestamp` or `data_source` keys. -/
def fallbackReading : Reading :=
  { live_power := 0
    energy_today := some 0
    ac_power := 0
    dc_power := 0
    efficiency := 0
    uv_index := 0
    total_energy := some 0
    system_temp := 0
    co2_avoided := some 0
    ambient_temp := 0
    production_values := List.replicate 24 0
    dataTimestamp := none
    dataSource := none }

/-- The parse phase of `fetch_pv_data`: on success the parsed reading is
returned and `log_data` is invoked (second component `true`); on any parse
exception the fallback reading is returned and `log_data` is not invoked. -/
def fetch_pv_data (csv : Csv) : Reading × Bool :=
  match parseCore csv with
  | Except.ok r => (r, true)
  | Except.error _ => (fallbackReading, false)

/-- Embedding of `log_data` (`app.py` lines 878-906): one row is inserted and
the insertion timestamp defaults to the write time (`ts`).  The surrounding
`try/except` catches any persistence failure, shows an error message and
returns normally, so `raised` is `false` in both outcomes. -/
structure StoreRow where
  ts : ℚ
  live_power : Option ℚ
  energy_today : Option ℚ
  ac_power : Option ℚ
  dc_power : Option ℚ
  efficiency : Option ℚ
  uv_index : Option ℚ
  total_energy : Option ℚ
  system_temp : Option ℚ
  co2_avoided : Option ℚ
  ambient_temp : Option ℚ
  data_source : String
deriving DecidableEq

/-- The row inserted by `log_data` for a parsed reading (NaN values are stored
as NULL by the SQLite binding). -/
def mkStoreRow (ts : ℚ) (r : Reading) (src : String) : StoreRow :=
  { ts := ts
    live_power := some r.live_power
    energy_today := r.energy_today
    ac_power := some r.ac_power
    dc_power := some r.dc_power
    efficiency := some r.efficiency
    uv_index := some r.uv_index
    total_energy := r.total_energy
    system_temp := some r.system_temp
    co2_avoided := r.co2_avoided
    ambient_temp := some r.ambient_temp
    data_source := src }

/-- Outcome of one `log_data` call: the table afterwards, whether the error
path showed a message, and whether an exception propagated to the caller. -/
structure LogResult where
  table : List StoreRow
  errorShown : Bool
  raised : Bool
deriving DecidableEq

/-- Embedding of `log_data`: when the database write succeeds (`dbOk`) the row
is appended; when it fails the broad `except` swallows the exception, shows an
error and returns normally — nothing ever propagates. -/
def log_data (dbOk : Bool) (r : Reading) (src : String) (ts : ℚ)
    (table : List StoreRow) : LogResult :=
  if dbOk then
    { table := table ++ [mkStoreRow ts r src], errorShown := false, raised := false }
  else
    { table := table, errorShown := true, raised := false }

/-- SQL `AVG` over a column: NULLs are ignored; NULL on an empty set. -/
def sqlAvg (xs : List (Option ℚ)) : Option ℚ :=
  match xs.filterMap id with
  | [] => none
  | v :: vs => some ((v :: vs).sum / (v :: vs).length)

/-- SQL `MAX` over a column: NULLs are ignored; NULL on an empty set. -/
def sqlMax (xs : List (Option ℚ)) : Option ℚ :=
  match xs.filterMap id with
  | [] => none
  | v :: vs => some (vs.foldl max v)

/-- SQL `MIN` over a column: NULLs are ignored; NULL on an empty set. -/
def sqlMin (xs : List (Option ℚ)) : Option ℚ :=
  match xs.filterMap id with
  | [] => none
  | v :: vs => some (vs.foldl min v)

/-- SQL `SUM` over a column: NULLs are ignored; NULL on an empty set. -/
def sqlSum (xs : List (Option ℚ)) : Option ℚ :=
  match xs.filterMap id with
  | [] => none
  | v :: vs => some ((v :: vs).sum)

/-- SQLite division: NULL operands and division by zero give NULL. -/
def sqlDiv (x : Option ℚ) (n : ℕ) : Option ℚ :=
  match x with
  | none => none
  | some v => if n = 0 then none else some (v / n)

/-- Result dict of the statistics query in `get_data_statistics`. -/
structure Stats where
  reading_count : ℕ
  avg_power : Option ℚ
  max_power : Option ℚ
  min_power : Option ℚ
  avg_efficiency : Option ℚ
  avg_daily_energy : Option ℚ
deriving DecidableEq

/-- Embedding of `get_data_statistics` (`app.py` lines 930-953): the single
aggregate row over the trailing window, with SQL NULL semantics; a database
error is swallowed and yields `none` (the empty dict). -/
def get_data_statistics (dbOk : Bool) (table : List StoreRow) (now hours : ℚ) :
    Option Stats :=
  if dbOk then
    let win := table.filter (fun row => decide (now - hours ≤ row.ts))
    some
      { reading_count := win.length
        avg_power := sqlAvg (win.map (fun row => row.live_power))
        max_power := sqlMax (win.map (fun row => row.live_power))
        min_power := sqlMin (win.map (fun row => row.live_power))
        avg_efficiency := sqlAvg (win.map (fun row => row.efficiency))
        avg_daily_energy :=
          sqlDiv (sqlSum (win.map (fun row => row.energy_today))) win.length }
  else
    none

/-- Environment of one poll-loop tick of `ftp_monitor.py`: the probe outcome
(`none` when `get_mdtm` fails) and the success of the first and second
`download_to` calls the tick may make. -/
structure TickEnv where
  mdtm : Option String
  dlFirst : Bool
  dlSecond : Bool
deriving DecidableEq

/-- Observable outcome of one `_one_check` call: the new `prev_mdtm`, the
destinations passed to `download_to` in order, and the log lines. -/
structure TickResult where
  prev : Option String
  downloads : List String
  logs : List String
deriving DecidableEq

/-- The `LOCAL` destination path of `ftp_monitor.py`. -/
def LOCAL : String := "pv.csv"

/-- Snapshot destination `os.path.join(SNAP_DIR, ...)` keyed by the token. -/
def snapName (mdtm : String) : String :=
  "pv_csv_snapshots/pv_" ++ mdtm ++ ".csv"

/-- Embedding of `_one_check` (`ftp_monitor.py` lines 77-105): probe, compare
with the last-seen token, maybe download, and finally set `prev_mdtm = mdtm`
unconditionally whenever the probe succeeded. -/
def one_check (prev_mdtm : Option String) (env : TickEnv) : TickResult :=
  match env.mdtm with
  | none =>
    { prev := prev_mdtm
      downloads := []
      logs := ["Could not get MDTM (server may not support it or connection failed)"] }
  | some mdtm =>
    match prev_mdtm with
    | none =>
      if env.dlFirst then
        { prev := some mdtm
          downloads := [LOCAL, snapName mdtm]
          logs := ["Initial fetch: downloading file",
                   "Saved initial snapshot: " ++ snapName mdtm] }
      else
        { prev := some mdtm
          downloads := [LOCAL]
          logs := ["Initial fetch: downloading file", "Initial download failed"] }
    | some p =>
      if mdtm = p then
        { prev := some mdtm
          downloads := []
          logs := ["No change detected"] }
      else
        if env.dlFirst then
          { prev := some mdtm
            downloads := [snapName mdtm, LOCAL]
            logs := ["Change detected -> downloading new snapshot",
                     "Saved snapshot: " ++ snapName mdtm] }
        else
          { prev := some mdtm
            downloads := [snapName mdtm]
            logs := ["Change detected -> downloading new snapshot",
                     "Snapshot download failed"] }

/-- Embedding of `download_to` (`ftp_monitor.py` lines 42-60): the destination
is opened for writing (truncating the prior content `dest`) and each received
chunk is written directly; the first component is the returned success flag
and the second the destination's content after the call — the concatenation of
the chunks received before completion or failure.  No temporary file is
involved. -/
def download_to (chunks : List (List ℕ)) (ok : Bool) (dest : List ℕ) :
    Bool × List ℕ :=
  (ok, chunks.flatten)

theorem parseCore_ok_shape (csv : Csv) (r : Reading) (h : parseCore csv = Except.ok r) :
    ∃ pv et te c, r = mkReading pv et te c := by
  unfold parseCore at h
  repeat' split at h
  all_goals try exact Except.noConfusion h
  injection h with h2
  exact ⟨_, _, _, _, h2.symm⟩

@[simp] theorem mkReading_live (pv : List ℚ) (et te : Option ℚ) (c : Cell) :
    (mkReading pv et te c).live_power = liveOf pv := rfl

@[simp] theorem mkReading_ac (pv : List ℚ) (et te : Option ℚ) (c : Cell) :
    (mkReading pv et te c).ac_power =
      if liveOf pv = 0 then 0 else liveOf pv * (92 / 100) := rfl

@[simp] theorem mkReading_dc (pv : List ℚ) (et te : Option ℚ) (c : Cell) :
    (mkReading pv et te c).dc_power =
      if liveOf pv = 0 then 0 else liveOf pv * (102 / 100) := rfl

@[simp] theorem mkReading_co2 (pv : List ℚ) (et te : Option ℚ) (c : Cell) :
    (mkReading pv et te c).co2_avoided = te.map (fun q => q * (366 / 1000)) := rfl

@[simp] theorem mkReading_total (pv : List ℚ) (et te : Option ℚ) (c : Cell) :
    (mkReading pv et te c).total_energy = te := rfl

@[simp] theorem mkReading_curve (pv : List ℚ) (et te : Option ℚ) (c : Cell) :
    (mkReading pv et te c).production_values = pv := rfl

@[simp] theorem mkReading_eff (pv : List ℚ) (et te : Option ℚ) (c : Cell) :
    (mkReading pv et te c).efficiency = 92 := rfl

@[simp] theorem mkReading_src (pv : List ℚ) (et te : Option ℚ) (c : Cell) :
    (mkReading pv et te c).dataSource = some "live" := rfl

/-- Concrete snapshot for the derived-field witness: one data row with
`total_energy_kWh = 100` and a single per-point column holding `5`. -/
def wCsv : Csv :=
  { header := ["timestamp", "total_energy_kWh", "energy_ptot_0_kWh"]
    rows := [[Cell.txt "t0", Cell.num 100, Cell.num 5]] }

/-- The reading `wCsv` parses to. -/
def wReading : Reading :=
  mkReading [5] (some 100) (some 100) (Cell.txt "t0")

/-- C2: for every successfully parsed reading, `ac_power = live_power * 0.92`,
`dc_power = live_power * 1.02`, `co2_avoided = total_energy * 0.366`; in
particular `total_energy = 100` gives `co2_avoided = 36.6`, and
`live_power = 5` gives `ac_power = 4.6` and `dc_power = 5.1`. -/
theorem C2_derived_fields (csv : Csv) (r : Reading)
    (h : parseCore csv = Except.ok r) :
    r.ac_power = r.live_power * (92 / 100) ∧
    r.dc_power = r.live_power * (102 / 100) ∧
    r.co2_avoided = r.total_energy.map (fun q => q * (366 / 1000)) ∧
    (r.total_energy = some 100 → r.co2_avoided = some (366 / 10)) ∧
    (r.live_power = 5 → r.ac_power = 46 / 10 ∧ r.dc_power = 51 / 10) := by
  obtain ⟨pv, et, te, c, rfl⟩ := parseCore_ok_shape csv r h
  simp only [mkReading_live, mkReading_ac, mkReading_dc, mkReading_co2,
    mkReading_total]
  refine ⟨?_, ?_, trivial, ?_, ?_⟩
  · by_cases h0 : liveOf pv = 0 <;> simp [h0]
  · by_cases h0 : liveOf pv = 0 <;> simp [h0]
  · intro hte
    subst hte
    norm_num
  · intro h5
    rw [h5]
    norm_num

/-- Witness for C2 at the concrete snapshot `wCsv`. -/
theorem C2_witness :
    wReading.total_energy = some 100 ∧ wReading.co2_avoided = some (366 / 10) ∧
    wReading.live_power = 5 ∧ wReading.ac_power = 46 / 10 ∧
    wReading.dc_power = 51 / 10 := by
  have h := C2_derived_fields wCsv wReading rfl
  have h100 : wReading.total_energy = some 100 := rfl
  have h5 : wReading.live_power = 5 := rfl
  exact ⟨h100, h.2.2.2.1 h100, h5, (h.2.2.2.2 h5).1, (h.2.2.2.2 h5).2⟩

/-- The example column set of the sort-correctness property, with embedded
indices [3, 1, 10, 2]. -/
def exCols : List String :=
  ["energy_ptot_3_kWh", "energy_ptot_1_kWh", "energy_ptot_10_kWh",
   "energy_ptot_2_kWh"]

/-- C3: the per-point columns are sorted ascending by the embedded integer
index (the example [3, 1, 10, 2] yields [1, 2, 3, 10]); a column whose index
cannot be parsed gets the sentinel `10 ^ 9`, hence sorts strictly after every
column with a parsable index below the sentinel, and no error is raised (the
key function is total); the sort permutes the columns and orders them by
key. -/
theorem C3_sort_order :
    sortCols exCols =
      ["energy_ptot_1_kWh", "energy_ptot_2_kWh", "energy_ptot_3_kWh",
       "energy_ptot_10_kWh"] ∧
    (∀ col : String, parseColIdx col = none → _ptot_index col = 10 ^ 9) ∧
    (∀ (c c' : String) (k : ℤ), parseColIdx c = none → parseColIdx c' = some k →
      k < 10 ^ 9 → _ptot_index c' < _ptot_index c) ∧
    (∀ cols : List String, List.Sorted ptotLe (sortCols cols)) ∧
    (∀ cols : List String, List.Perm (sortCols cols) cols) := by
  refine ⟨by decide, ?_, ?_, ?_, ?_⟩
  · intro col h
    simp [_ptot_index, h]
  · intro c c' k hc hc' hk
    simpa [_ptot_index, hc, hc'] using hk
  · intro cols
    exact List.sorted_insertionSort ptotLe cols
  · intro cols
    exact List.perm_insertionSort ptotLe cols

/-- Witness for C3 at a concrete malformed column name. -/
theorem C3_witness :
    _ptot_index "energy_ptot_x_kWh" = 10 ^ 9 ∧
    _ptot_index "energy_ptot_2_kWh" < _ptot_index "energy_ptot_x_kWh" :=
  ⟨C3_sort_order.2.1 "energy_ptot_x_kWh" rfl,
   C3_sort_order.2.2.1 "energy_ptot_x_kWh" "energy_ptot_2_kWh" 2 rfl rfl
     (by decide)⟩

/-- C8: when the probe returns a token equal to the last-seen token, the tick
performs no download (and, the monitor appending nothing anywhere, a fortiori
no append) and leaves the token unchanged. -/
theorem C8_unchanged_no_download (t : String) (e : TickEnv)
    (hm : e.mdtm = some t) :
    (one_check (some t) e).downloads = [] ∧
    (one_check (some t) e).prev = some t := by
  cases e with
  | mk m d1 d2 =>
    cases hm
    simp [one_check]

/-- Witness for C8 at a concrete token. -/
theorem C8_witness :
    (one_check (some "20240101") ⟨some "20240101", true, true⟩).downloads = [] ∧
    (one_check (some "20240101") ⟨some "20240101", true, true⟩).prev =
      some "20240101" :=
  C8_unchanged_no_download "20240101" ⟨some "20240101", true, true⟩ rfl

/-- Concrete snapshot whose per-point columns are all NaN. -/
def naCsv : Csv :=
  { header := ["timestamp", "total_energy_kWh", "energy_ptot_0_kWh",
               "energy_ptot_1_kWh"]
    rows := [[Cell.txt "t1", Cell.num 2, Cell.na, Cell.na]] }

/-- The reading `naCsv` parses to: empty curve, zero live power. -/
def naReading : Reading :=
  mkReading [] (some 2) (some 2) (Cell.txt "t1")

/-- C9: for every parsed snapshot, `live_power` is the last value of the
sorted, filtered curve, or 0 when the curve is empty; a snapshot with zero
valid per-point cells parses without error to an empty curve and
`live_power = 0`. -/
theorem C9_live_power :
    (∀ (csv : Csv) (r : Reading), parseCore csv = Except.ok r →
      r.live_power = (r.production_values.getLast?).getD 0 ∧
      (r.production_values = [] → r.live_power = 0)) ∧
    (parseCore naCsv = Except.ok naReading ∧
      naReading.live_power = 0 ∧ naReading.production_values = []) := by
  constructor
  · intro csv r h
    obtain ⟨pv, et, te, c, rfl⟩ := parseCore_ok_shape csv r h
    constructor
    · rfl
    · intro hpv
      simp only [mkReading_curve] at hpv
      subst hpv
      rfl
  · exact ⟨rfl, rfl, rfl⟩

/-- Witness for C9 at the all-NaN snapshot. -/
theorem C9_witness :
    naReading.live_power = (naReading.production_values.getLast?).getD 0 ∧
    naReading.live_power = 0 :=
  ⟨(C9_live_power.1 naCsv naReading rfl).1,
   (C9_live_power.1 naCsv naReading rfl).2 rfl⟩

/-- C1 counterexample: with last-seen token "A", a probe returning "B" whose
snapshot download fails still updates the last-seen token to "B" (line 105 of
`ftp_monitor.py` runs unconditionally), and the next tick with the same token
"B" takes the unchanged path and attempts no download — the change is not
retried. -/
theorem C1_counterexample :
    (one_check (some "A") ⟨some "B", false, false⟩).downloads = [snapName "B"] ∧
    (one_check (some "A") ⟨some "B", false, false⟩).prev = some "B" ∧
    (some "B" : Option String) ≠ some "A" ∧
    (one_check (some "B") ⟨some "B", true, true⟩).downloads = [] := by
  refine ⟨rfl, rfl, by decide, rfl⟩

/-- C1 amended: when the probe succeeds with a changed token and the snapshot
download fails, the last-seen token is nevertheless updated to the new token
(only the failed download is recorded), so the same change is not retried on
the next tick. -/
theorem C1_token_updated_on_download_failure (p t : String) (e : TickEnv)
    (hm : e.mdtm = some t) (hd : e.dlFirst = false) (hne : t ≠ p) :
    (one_check (some p) e).prev = some t ∧
    (one_check (some p) e).downloads = [snapName t] := by
  cases e with
  | mk m d1 d2 =>
    cases hm
    cases hd
    simp [one_check, hne]

/-- Witness for the amended C1 at concrete tokens. -/
theorem C1_witness :
    (one_check (some "A") ⟨some "B", false, true⟩).prev = some "B" ∧
    (one_check (some "A") ⟨some "B", false, true⟩).downloads = [snapName "B"] :=
  C1_token_updated_on_download_failure "A" "B" ⟨some "B", false, true⟩ rfl rfl
    (by decide)

/-- C4 counterexample: a transfer that delivers one chunk `[9]` of an intended
content `[9, 8]` and then fails leaves the destination holding `[9]` — neither
the complete prior content `[1, 2, 3]` nor the complete new content: a partial
write is observable and the destination is corrupted. -/
theorem C4_counterexample :
    download_to [[9]] false [1, 2, 3] = (false, [9]) ∧
    ([9] : List ℕ) ≠ [1, 2, 3] ∧ ([9] : List ℕ) ≠ [9, 8] := by
  refine ⟨rfl, by decide, by decide⟩

/-- C4 amended: `download_to` writes received chunks directly into the
destination (no temporary file): after the call the destination holds exactly
the concatenation of the received chunks whether or not the transfer
succeeded, and a failed transfer whose received data differs from the prior
content leaves the destination changed (the prior content is not restored). -/
theorem C4_direct_write (chunks : List (List ℕ)) (ok : Bool) (dest : List ℕ) :
    download_to chunks ok dest = (ok, chunks.flatten) ∧
    (chunks.flatten ≠ dest → (download_to chunks false dest).2 ≠ dest) :=
  ⟨rfl, fun h => h⟩

/-- Witness for the amended C4 at a concrete failed transfer. -/
theorem C4_witness : (download_to [[9]] false [1, 2, 3]).2 ≠ [1, 2, 3] :=
  (C4_direct_write [[9]] false [1, 2, 3]).2 (by decide)

/-- C5 counterexample: on a header-only CSV (fewer than 2 rows) the internal
parse raises, but no `SchemaError` reaches the caller — `fetch_pv_data`
swallows the exception and returns the all-zero fallback reading (a Reading is
produced after all), without appending. -/
theorem C5_counterexample :
    parseCore ⟨["timestamp", "total_energy_kWh"], []⟩ = Except.error () ∧
    fetch_pv_data ⟨["timestamp", "total_energy_kWh"], []⟩ =
      (fallbackReading, false) :=
  ⟨rfl, rfl⟩

/-- C5 amended: for every CSV with a header but no data row, the parse fails
internally (`Except.error`, the model of the raised exception), and
`fetch_pv_data` catches it, returning the all-zero fallback reading without
invoking `log_data`; no `SchemaError` value is surfaced to the caller. -/
theorem C5_header_only_fallback (hdr : List String) :
    parseCore ⟨hdr, []⟩ = Except.error () ∧
    fetch_pv_data ⟨hdr, []⟩ = (fallbackReading, false) :=
  ⟨rfl, rfl⟩

/-- The aggregate row actually produced over an empty window. -/
def emptyStats : Stats :=
  { reading_count := 0, avg_power := none, max_power := none, min_power := none
    avg_efficiency := none, avg_daily_energy := none }

/-- C6 counterexample: over an empty window the aggregate query returns
count = 0 but NULL (`none`) for every other aggregate — `avg_power` is not 0
as the claim states. -/
theorem C6_counterexample :
    get_data_statistics true [] 0 1 = some emptyStats ∧
    emptyStats.avg_power ≠ some 0 ∧ emptyStats.reading_count = 0 := by
  refine ⟨rfl, by decide, rfl⟩

/-- C6 amended: an aggregate query over a window containing zero records
returns count = 0 and NULL (`none`) for avg_power, max_power, min_power,
avg_efficiency and avg_daily_energy — distinguishable from a database error,
which yields no dict at all (`none`). -/
theorem C6_empty_window (table : List StoreRow) (now hours : ℚ)
    (h : table.filter (fun row => decide (now - hours ≤ row.ts)) = []) :
    get_data_statistics true table now hours = some emptyStats ∧
    get_data_statistics false table now hours = none := by
  constructor
  · simp only [get_data_statistics, if_pos rfl, h]
    rfl
  · rfl

/-- Witness for the amended C6 on the empty table. -/
theorem C6_witness :
    get_data_statistics true [] 0 1 = some emptyStats ∧
    get_data_statistics false [] 0 1 = none :=
  C6_empty_window [] 0 1 rfl

/-- C7 counterexample: a failing database write during `log_data` leaves the
table unchanged and shows an error message, yet no exception propagates to
the caller (`raised = false`) — the caller cannot tell the reading was not
recorded. -/
theorem C7_counterexample :
    (log_data false fallbackReading "live" 0 []).raised = false ∧
    (log_data false fallbackReading "live" 0 []).table = [] ∧
    (log_data false fallbackReading "live" 0 []).errorShown = true :=
  ⟨rfl, rfl, rfl⟩

/-- C7 amended: `log_data` never propagates an error: on a persistence failure
it swallows the exception, shows an error message and returns normally with
the table unchanged; on success the record is appended. -/
theorem C7_no_error_propagation (dbOk : Bool) (r : Reading) (src : String)
    (ts : ℚ) (table : List StoreRow) :
    (log_data dbOk r src ts table).raised = false ∧
    (log_data false r src ts table).table = table ∧
    (log_data false r src ts table).errorShown = true ∧
    (log_data true r src ts table).table = table ++ [mkStoreRow ts r src] := by
  refine ⟨?_, rfl, rfl, rfl⟩
  cases dbOk <;> rfl

/-- Concrete genuine snapshot whose measured values are all zero. -/
def zCsv : Csv :=
  { header := ["timestamp", "total_energy_kWh", "energy_ptot_0_kWh"]
    rows := [[Cell.txt "t2", Cell.num 0, Cell.num 0]] }

/-- The reading `zCsv` parses to. -/
def zReading : Reading :=
  mkReading [0] (some 0) (some 0) (Cell.txt "t2")

/-- C10 counterexample: a genuine reading with all measured values zero
(`zReading`) still differs from the parse-failure fallback: every
successfully parsed reading has efficiency 92.0 and carries the
`data_source` tag, while the fallback has efficiency 0.0 and no tag — so at
the returned-value interface a parse failure is distinguishable from a
genuine all-zero reading. -/
theorem C10_counterexample :
    parseCore zCsv = Except.ok zReading ∧
    zReading.live_power = 0 ∧ zReading.total_energy = some 0 ∧
    zReading.efficiency = 92 ∧ zReading.dataSource = some "live" ∧
    fallbackReading.efficiency = 0 ∧ fallbackReading.dataSource = none ∧
    zReading ≠ fallbackReading := by
  refine ⟨rfl, rfl, rfl, rfl, rfl, rfl, rfl, ?_⟩
  intro h
  have h92 : (92 : ℚ) = 0 := congrArg Reading.efficiency h
  norm_num at h92

/-- C10 amended: on any parse exception `fetch_pv_data` returns the fallback
reading — all numeric fields 0.0 with a 24-point all-zero curve — without
invoking `log_data`, and no error value is surfaced in the returned data;
however the fallback is distinguishable from every successfully parsed
reading, since parsed readings always have efficiency 92.0 and a
`data_source` tag while the fallback has efficiency 0.0 and none. -/
theorem C10_parse_failure_fallback :
    (∀ csv : Csv, parseCore csv = Except.error () →
      fetch_pv_data csv = (fallbackReading, false)) ∧
    (fallbackReading.live_power = 0 ∧ fallbackReading.energy_today = some 0 ∧
      fallbackReading.ac_power = 0 ∧ fallbackReading.dc_power = 0 ∧
      fallbackReading.efficiency = 0 ∧ fallbackReading.uv_index = 0 ∧
      fallbackReading.total_energy = some 0 ∧
      fallbackReading.system_temp = 0 ∧ fallbackReading.co2_avoided = some 0 ∧
      fallbackReading.ambient_temp = 0 ∧
      fallbackReading.production_values = List.replicate 24 0 ∧
      fallbackReading.dataSource = none) ∧
    (∀ (csv : Csv) (r : Reading), parseCore csv = Except.ok r →
      r.efficiency = 92 ∧ r.dataSource = some "live") := by
  refine ⟨?_, ⟨rfl, rfl, rfl, rfl, rfl, rfl, rfl, rfl, rfl, rfl, rfl, rfl⟩, ?_⟩
  · intro csv h
    simp [fetch_pv_data, h]
  · intro csv r h
    obtain ⟨pv, et, te, c, rfl⟩ := parseCore_ok_shape csv r h
    exact ⟨rfl, rfl⟩

/-- Witness for the amended C10: a concrete failing parse returns the
fallback without appending, and the concrete genuine parse of `zCsv` has
efficiency 92 and the live tag. -/
theorem C10_witness :
    fetch_pv_data ⟨["timestamp"], []⟩ = (fallbackReading, false) ∧
    (zReading.efficiency = 92 ∧ zReading.dataSource = some "live") :=
  ⟨C10_parse_failure_fallback.1 ⟨["timestamp"], []⟩ rfl,
   C10_parse_failure_fallback.2.2 zCsv zReading rfl⟩
